import Mathlib

/-!
Verification of the save/load core of orbitx (src/orbitx/common.py).

The core under study is the ingestion/normalization/serialization pipeline:
`load_savefile`, the inline canonicalization repair pass, and
`write_savefile`.  The snapshot record (`PhysicsState`) and the two codecs
(the legacy `.rnd` decoder and the protobuf JSON schema codec) are external
collaborators of that file; they are modelled here from the spec as an
explicit record type and as function parameters.  The filesystem is modelled
as an association list from paths to file contents.
-/

deriving instance DecidableEq for Except

namespace OrbitX

/-- Modelled from the spec: opaque entity record (a body/craft with identity,
position and velocity); the core passes entities through uninterpreted.
The concrete `PhysicsState` class lives in `orbitx/data_structures.py`,
outside the material under src/. -/
structure Entity where
  name : String
  position : ℚ × ℚ
  velocity : ℚ × ℚ
deriving DecidableEq, Repr

/-- Modelled from the spec: the Canonical Simulation Snapshot
(`data_structures.PhysicsState`): four scalar simulation parameters plus an
opaque entity collection.  `srb_time` is a real-valued timer; it is embedded
as a rational so that the equality tests of the repair pass are exact. -/
structure PhysicsState where
  time_acc : Int
  reference : String
  target : String
  srb_time : ℚ
  entities : List Entity
deriving DecidableEq, Repr

/- Frequently-used entity names (src/orbitx/common.py lines 21-27). -/

def HABITAT : String := "Habitat"

def AYSE : String := "AYSE"

def SUN : String := "Sun"

def EARTH : String := "Earth"

def MODULE : String := "Module"

def OCESS : String := "OCESS"

/-- Represents a single value of time acc (src/orbitx/common.py `TimeAcc`). -/
structure TimeAcc where
  value : Int
  desc : String
  accurate_bound : ℚ
deriving DecidableEq, Repr

/-- The table of allowed time accelerations (src/orbitx/common.py `TIME_ACCS`). -/
def TIME_ACCS : List TimeAcc := [
  { value := 0, desc := "Pause", accurate_bound := 10000 },
  { value := 1, desc := "1x", accurate_bound := 1000 },
  { value := 5, desc := "5x", accurate_bound := 12 },
  { value := 10, desc := "10x", accurate_bound := 9 },
  { value := 50, desc := "50x", accurate_bound := 7 },
  { value := 100, desc := "100x", accurate_bound := 5 },
  { value := 1000, desc := "1,000x", accurate_bound := 3 },
  { value := 10000, desc := "10,000x", accurate_bound := 1 },
  { value := 100000, desc := "100,000x", accurate_bound := 1/10 }
]

def DEFAULT_CENTRE : String := HABITAT

def DEFAULT_REFERENCE : String := EARTH

def DEFAULT_TARGET : String := AYSE

/-- SRBs are full but have not been used (src/orbitx/common.py `SRB_FULL`). -/
def SRB_FULL : ℚ := -1

/-- SRBs have been fully used (src/orbitx/common.py `SRB_EMPTY`). -/
def SRB_EMPTY : ℚ := -2

def SRB_BURNTIME : ℚ := 120

/-- A filesystem path: a parent directory and a final component, mirroring
the parts of a `pathlib.Path` that `load_savefile` / `write_savefile`
inspect (`.suffix`, `.parent`, `.name`). -/
structure SavePath where
  parent : List String
  name : String
deriving DecidableEq, Repr

/-- Python `str.lower`, restricted to the ASCII range (the only characters
the extension comparisons of the source ever see). -/
def lowerString (s : String) : String := String.mk (s.data.map Char.toLower)

/-- Index of the last occurrence of a dot in a character list, if any. -/
def rfindDot (cs : List Char) : Option Nat :=
  match cs.reverse.findIdx? (· == '.') with
  | none => none
  | some j => some (cs.length - 1 - j)

/-- Python `pathlib.Path.suffix`: the extension of the final component from
its last dot, or the empty string when there is no dot or the dot is the
first or last character of the name. -/
def SavePath.suffix (p : SavePath) : String :=
  let cs := p.name.data
  match rfindDot cs with
  | none => ""
  | some i => if 0 < i && i < cs.length - 1 then String.mk (cs.drop i) else ""

/-- The filesystem: an association list from paths to file contents. -/
def FileSystem : Type := List (SavePath × String)

/-- Read a file: the content stored at the first matching path. -/
def fsRead : FileSystem → SavePath → Option String
  | [], _ => none
  | (q, c) :: rest, p => if q = p then some c else fsRead rest p

/-- Write a file, fully replacing any existing file at the target path. -/
def fsWrite (fs : FileSystem) (p : SavePath) (content : String) : FileSystem :=
  (p, content) :: fs

/-- Errors surfaced by `load_savefile`: a missing input file, or an error
propagated unchanged from one of the two collaborators. -/
inductive LoadError where
  | fileNotFound
  | legacyFormatError (msg : String)
  | schemaParseError (msg : String)
deriving DecidableEq, Repr

/-- The canonicalization repair pass inlined at the end of `load_savefile`
(src/orbitx/common.py lines 172-179): four independent equality checks
against the unset sentinel of each scalar field, each followed by
assignment of that field's documented default.  The four checks touch
disjoint fields, so writing them as one record update is equivalent to the
source's sequence of four if-statements. -/
def canonicalize (s : PhysicsState) : PhysicsState :=
  { time_acc := if s.time_acc = 0 then 1 else s.time_acc
    reference := if s.reference = "" then DEFAULT_REFERENCE else s.reference
    target := if s.target = "" then DEFAULT_TARGET else s.target
    srb_time := if s.srb_time = 0 then SRB_FULL else s.srb_time
    entities := s.entities }

/-- `load_savefile` (src/orbitx/common.py lines 143-180).  The legacy
decoder (`orbitv_file_interface.clone_orbitv_state`) and the schema codec
(`google.protobuf.json_format.Parse` composed with the `PhysicsState`
constructor) are external collaborators, passed as the `legacy` and `parse`
parameters; each may fail, and its error is propagated unchanged.  Reading
a missing file fails with `fileNotFound` (Python's `FileNotFoundError`
raised by `open`).  The warning emitted for a non-`.json` extension is a
log side effect with no influence on the result, so it does not appear in
the model. -/
def load_savefile (legacy : SavePath → Except String PhysicsState)
    (parse : String → Except String PhysicsState)
    (fs : FileSystem) (file : SavePath) : Except LoadError PhysicsState :=
  if lowerString file.suffix = ".rnd" then
    match legacy file with
    | .error e => .error (.legacyFormatError e)
    | .ok physics_state => .ok (canonicalize physics_state)
  else
    match fsRead fs file with
    | none => .error .fileNotFound
    | some data =>
      match parse data with
      | .error e => .error (.schemaParseError e)
      | .ok physics_state => .ok (canonicalize physics_state)

/-- `write_savefile` (src/orbitx/common.py lines 183-194).  The schema
encoder (`MessageToJson` composed with `as_proto`) is the external
collaborator `encode`.  Returns the updated filesystem together with the
possibly-different path the state was saved under. -/
def write_savefile (encode : PhysicsState → String) (fs : FileSystem)
    (state : PhysicsState) (file : SavePath) : FileSystem × SavePath :=
  let file' := if lowerString file.suffix ≠ ".json"
    then { parent := file.parent, name := file.name ++ ".json" }
    else file
  (fsWrite fs file' (encode state), file')

/-! ### Concrete fixtures used by witnesses and counterexamples -/

def jsonPath : SavePath := { parent := ["data", "saves"], name := "mysave.json" }

def txtPath : SavePath := { parent := ["data", "saves"], name := "mysave.txt" }

def bakPath : SavePath := { parent := ["data", "saves"], name := "save.bak" }

def upperPath : SavePath := { parent := ["data", "saves"], name := "SAVE.JSON" }

def missingPath : SavePath := { parent := ["data", "saves"], name := "nope.json" }

def sampleEntities : List Entity :=
  [{ name := "Habitat", position := (1, 2), velocity := (3, 4) },
   { name := "AYSE", position := (5, 6), velocity := (7, 8) }]

/-- A decoded snapshot whose four scalar fields are all unset sentinels. -/
def sentinelState : PhysicsState :=
  { time_acc := 0, reference := "", target := "", srb_time := 0,
    entities := sampleEntities }

/-- A decoded snapshot whose four scalar fields are valid non-sentinel
values. -/
def validState : PhysicsState :=
  { time_acc := 50, reference := "Earth", target := "AYSE",
    srb_time := SRB_EMPTY, entities := sampleEntities }

/-- A schema-representable snapshot whose time acceleration is not one of
the magnitudes listed in `TIME_ACCS`. -/
def outOfDomainState : PhysicsState :=
  { time_acc := 7, reference := "Earth", target := "AYSE",
    srb_time := SRB_EMPTY, entities := [] }

/-- A legacy-decoder collaborator that always fails. -/
def legacyNone : SavePath → Except String PhysicsState :=
  fun _ => .error "corrupt rnd data"

/-- A schema-codec collaborator that parses every document to `s`. -/
def parseConst (s : PhysicsState) : String → Except String PhysicsState :=
  fun _ => .ok s

/-- A schema-codec collaborator that rejects every document. -/
def parseFail : String → Except String PhysicsState :=
  fun _ => .error "malformed document"

/-- A concrete schema encoder for witnesses. -/
def encodeRef : PhysicsState → String := fun s => s.reference

/-! ### Helper lemmas -/

/-- The repair pass establishes all four canonical invariants. -/
theorem canonicalize_invariants (s : PhysicsState) :
    (canonicalize s).time_acc ≠ 0 ∧ (canonicalize s).reference ≠ "" ∧
    (canonicalize s).target ≠ "" ∧ (canonicalize s).srb_time ≠ 0 := by
  refine ⟨?_, ?_, ?_, ?_⟩ <;> simp only [canonicalize] <;> split <;>
    first
      | decide
      | assumption

/-- The repair pass fixes every snapshot that has no unset sentinel. -/
theorem canonicalize_of_no_sentinel (s : PhysicsState)
    (h1 : s.time_acc ≠ 0) (h2 : s.reference ≠ "") (h3 : s.target ≠ "")
    (h4 : s.srb_time ≠ 0) : canonicalize s = s := by
  unfold canonicalize
  rw [if_neg h1, if_neg h2, if_neg h3, if_neg h4]

/-- Every successfully loaded snapshot is the image of the repair pass. -/
theorem load_ok_canonical (legacy parse : _) (fs : FileSystem)
    (file : SavePath) (ps : PhysicsState)
    (h : load_savefile legacy parse fs file = .ok ps) :
    ∃ s, ps = canonicalize s := by
  unfold load_savefile at h
  split at h
  · cases hleg : legacy file with
    | error e => simp [hleg] at h
    | ok s => simp [hleg] at h; exact ⟨s, h.symm⟩
  · cases hr : fsRead fs file with
    | none => simp [hr] at h
    | some data =>
      cases hp : parse data with
      | error e => simp [hr, hp] at h
      | ok s => simp [hr, hp] at h; exact ⟨s, h.symm⟩

/-! ### Claims -/

/-- C1: every successful call of `load_savefile`, through either dialect
branch, returns a snapshot satisfying the four canonical invariants:
`time_acc ≠ 0`, `reference ≠ ""`, `target ≠ ""` and `srb_time ≠ 0`. -/
theorem load_savefile_ok_invariants
    (legacy parse : _) (fs : FileSystem) (file : SavePath)
    (ps : PhysicsState)
    (h : load_savefile legacy parse fs file = .ok ps) :
    ps.time_acc ≠ 0 ∧ ps.reference ≠ "" ∧ ps.target ≠ "" ∧
      ps.srb_time ≠ 0 := by
  obtain ⟨s, rfl⟩ := load_ok_canonical legacy parse fs file ps h
  exact canonicalize_invariants s

/-- Witness for C1: a concrete successful load through the schema branch
has all four invariants. -/
theorem load_savefile_ok_invariants_witness :
    (canonicalize sentinelState).time_acc ≠ 0 ∧
    (canonicalize sentinelState).reference ≠ "" ∧
    (canonicalize sentinelState).target ≠ "" ∧
    (canonicalize sentinelState).srb_time ≠ 0 :=
  load_savefile_ok_invariants legacyNone (parseConst sentinelState)
    [(jsonPath, "doc")] jsonPath (canonicalize sentinelState) (by decide)

/-- C2: loading a document whose four scalar fields are all unset sentinels
yields `time_acc = 1`, `reference = DEFAULT_REFERENCE` (Earth),
`target = DEFAULT_TARGET` (AYSE), `srb_time = SRB_FULL` (-1); the entity
collection is passed through unchanged. -/
theorem load_savefile_default_filling
    (legacy parse : _) (fs : FileSystem) (file : SavePath)
    (data : String) (s : PhysicsState)
    (hsuf : lowerString file.suffix ≠ ".rnd")
    (hread : fsRead fs file = some data)
    (hparse : parse data = .ok s)
    (h1 : s.time_acc = 0) (h2 : s.reference = "") (h3 : s.target = "")
    (h4 : s.srb_time = 0) :
    load_savefile legacy parse fs file
      = .ok { time_acc := 1, reference := DEFAULT_REFERENCE,
              target := DEFAULT_TARGET, srb_time := SRB_FULL,
              entities := s.entities } := by
  unfold load_savefile
  rw [if_neg hsuf]
  simp only [hread, hparse]
  simp [canonicalize, h1, h2, h3, h4]

/-- Witness for C2: a concrete all-sentinel document is loaded with every
default filled in and the entity list untouched. -/
theorem load_savefile_default_filling_witness :
    load_savefile legacyNone (parseConst sentinelState)
        [(jsonPath, "doc")] jsonPath
      = .ok { time_acc := 1, reference := DEFAULT_REFERENCE,
              target := DEFAULT_TARGET, srb_time := SRB_FULL,
              entities := sentinelState.entities } :=
  load_savefile_default_filling legacyNone (parseConst sentinelState)
    [(jsonPath, "doc")] jsonPath "doc" sentinelState
    (by decide) (by decide) (by decide) (by decide) (by decide) (by decide)
    (by decide)

/-- C3: the canonicalization repair pass is idempotent, because none of the
documented defaults equals the unset sentinel of its field. -/
theorem canonicalize_idempotent (s : PhysicsState) :
    canonicalize (canonicalize s) = canonicalize s := by
  unfold canonicalize
  simp only [PhysicsState.mk.injEq]
  refine ⟨?_, ?_, ?_, ?_, trivial⟩ <;> split_ifs <;>
    simp_all [DEFAULT_REFERENCE, DEFAULT_TARGET, EARTH, AYSE, SRB_FULL]

/-- C4: loading a document whose four scalar fields are valid non-sentinel
values (50, Earth, AYSE, SRB_EMPTY) returns the decoded snapshot exactly as
supplied: the repair pass changes no non-sentinel field. -/
theorem load_savefile_no_repair
    (legacy parse : _) (fs : FileSystem) (file : SavePath)
    (data : String) (s : PhysicsState)
    (hsuf : lowerString file.suffix ≠ ".rnd")
    (hread : fsRead fs file = some data)
    (hparse : parse data = .ok s)
    (h1 : s.time_acc = 50) (h2 : s.reference = "Earth")
    (h3 : s.target = "AYSE") (h4 : s.srb_time = SRB_EMPTY) :
    load_savefile legacy parse fs file = .ok s := by
  unfold load_savefile
  rw [if_neg hsuf]
  simp only [hread, hparse]
  have : canonicalize s = s :=
    canonicalize_of_no_sentinel s (by rw [h1]; decide) (by rw [h2]; decide)
      (by rw [h3]; decide) (by rw [h4]; decide)
  rw [this]

/-- Witness for C4: a concrete valid document round-trips through load
without any field being modified. -/
theorem load_savefile_no_repair_witness :
    load_savefile legacyNone (parseConst validState)
        [(jsonPath, "doc")] jsonPath = .ok validState :=
  load_savefile_no_repair legacyNone (parseConst validState)
    [(jsonPath, "doc")] jsonPath "doc" validState
    (by decide) (by decide) (by decide) (by decide) (by decide) (by decide)
    (by decide)

/-- Appending a nonempty string to a path's name changes the path. -/
theorem appendJson_ne (p : SavePath) :
    (SavePath.mk p.parent (p.name ++ ".json")) ≠ p := by
  intro h
  have hn : p.name ++ ".json" = p.name := congrArg SavePath.name h
  have hl := congrArg String.length hn
  rw [String.length_append] at hl
  have h5 : (".json" : String).length = 5 := rfl
  rw [h5] at hl
  omega

/-- C5: for every path whose extension does not lowercase to ".json",
`write_savefile` appends ".json" to the full filename in the same parent
directory, writes the encoded state at that adjusted path, and returns the
adjusted path, which differs from the input path. -/
theorem write_savefile_appends_json
    (encode : PhysicsState → String) (fs : FileSystem)
    (state : PhysicsState) (file : SavePath)
    (hsuf : lowerString file.suffix ≠ ".json") :
    (write_savefile encode fs state file).2
        = SavePath.mk file.parent (file.name ++ ".json") ∧
    (write_savefile encode fs state file).2 ≠ file ∧
    fsRead (write_savefile encode fs state file).1
        (SavePath.mk file.parent (file.name ++ ".json"))
      = some (encode state) := by
  unfold write_savefile
  rw [if_pos hsuf]
  refine ⟨rfl, appendJson_ne file, ?_⟩
  simp [fsWrite, fsRead]

/-- Witness for C5: saving to "save.bak" writes to and returns
"save.bak.json". -/
theorem write_savefile_appends_json_witness :
    (write_savefile encodeRef [] validState bakPath).2
        = SavePath.mk bakPath.parent (bakPath.name ++ ".json") ∧
    (write_savefile encodeRef [] validState bakPath).2 ≠ bakPath ∧
    fsRead (write_savefile encodeRef [] validState bakPath).1
        (SavePath.mk bakPath.parent (bakPath.name ++ ".json"))
      = some (encodeRef validState) :=
  write_savefile_appends_json encodeRef [] validState bakPath (by decide)

/-- C6: for any two paths that do not select the legacy branch, loading
files with identical content produces identical results: a non-canonical
extension such as ".txt" affects only logging, never the returned
snapshot. -/
theorem load_savefile_extension_irrelevant
    (legacy parse : _) (fs₁ fs₂ : FileSystem) (p₁ p₂ : SavePath)
    (h₁ : lowerString p₁.suffix ≠ ".rnd")
    (h₂ : lowerString p₂.suffix ≠ ".rnd")
    (hc : fsRead fs₁ p₁ = fsRead fs₂ p₂) :
    load_savefile legacy parse fs₁ p₁ = load_savefile legacy parse fs₂ p₂ := by
  unfold load_savefile
  rw [if_neg h₁, if_neg h₂, hc]

/-- Witness for C6: loading "mysave.txt" and "mysave.json" with the same
valid document succeeds and gives the same snapshot. -/
theorem load_savefile_extension_irrelevant_witness :
    load_savefile legacyNone (parseConst validState) [(txtPath, "doc")] txtPath
      = load_savefile legacyNone (parseConst validState)
          [(jsonPath, "doc")] jsonPath ∧
    load_savefile legacyNone (parseConst validState) [(txtPath, "doc")] txtPath
      = .ok validState :=
  ⟨load_savefile_extension_irrelevant legacyNone (parseConst validState)
      [(txtPath, "doc")] [(jsonPath, "doc")] txtPath jsonPath
      (by decide) (by decide) (by decide),
   by decide⟩

/-- C7: loading a nonexistent path fails with the file-not-found error and
returns no snapshot, and collaborator errors on existing files — schema
parse errors and legacy format errors — propagate to the caller
unchanged. -/
theorem load_savefile_error_handling :
    (∀ (legacy parse : _) (fs : FileSystem) (file : SavePath),
        lowerString file.suffix ≠ ".rnd" → fsRead fs file = none →
        load_savefile legacy parse fs file = .error .fileNotFound)
  ∧ (∀ (legacy parse : _) (fs : FileSystem) (file : SavePath)
        (data e : String),
        lowerString file.suffix ≠ ".rnd" → fsRead fs file = some data →
        parse data = .error e →
        load_savefile legacy parse fs file
          = .error (.schemaParseError e))
  ∧ (∀ (legacy parse : _) (fs : FileSystem) (file : SavePath) (e : String),
        lowerString file.suffix = ".rnd" → legacy file = .error e →
        load_savefile legacy parse fs file
          = .error (.legacyFormatError e)) := by
  refine ⟨?_, ?_, ?_⟩
  · intro legacy parse fs file hsuf hread
    unfold load_savefile
    rw [if_neg hsuf, hread]
  · intro legacy parse fs file data e hsuf hread hparse
    unfold load_savefile
    rw [if_neg hsuf]
    simp only [hread, hparse]
  · intro legacy parse fs file e hsuf hleg
    unfold load_savefile
    rw [if_pos hsuf]
    simp only [hleg]

/-- Witness for C7: a missing file yields the file-not-found error; a
malformed document and a failing legacy decode each surface their own
error unchanged. -/
theorem load_savefile_error_handling_witness :
    load_savefile legacyNone (parseConst validState) [] missingPath
      = .error .fileNotFound ∧
    load_savefile legacyNone parseFail [(jsonPath, "doc")] jsonPath
      = .error (.schemaParseError "malformed document") ∧
    load_savefile legacyNone (parseConst validState) []
        (SavePath.mk ["data", "saves"] "old.RND")
      = .error (.legacyFormatError "corrupt rnd data") :=
  ⟨load_savefile_error_handling.1 legacyNone (parseConst validState) []
      missingPath (by decide) (by decide),
   load_savefile_error_handling.2.1 legacyNone parseFail
      [(jsonPath, "doc")] jsonPath "doc" "malformed document"
      (by decide) (by decide) (by decide),
   load_savefile_error_handling.2.2 legacyNone (parseConst validState) []
      (SavePath.mk ["data", "saves"] "old.RND") "corrupt rnd data"
      (by decide) (by decide)⟩

/-- C8 counterexample: `load_savefile` performs no domain validation on
`time_acc` beyond the zero repair.  A schema-representable document whose
time acceleration is 7 — not one of the magnitudes in `TIME_ACCS` — loads
successfully and is returned to the consumer unchanged. -/
theorem load_savefile_time_acc_domain_counterexample :
    load_savefile legacyNone (parseConst outOfDomainState)
        [(jsonPath, "doc")] jsonPath = .ok outOfDomainState ∧
    outOfDomainState.time_acc = 7 ∧
    outOfDomainState.time_acc ∉ TIME_ACCS.map TimeAcc.value := by
  decide

/-- C8 (amended): every snapshot returned by `load_savefile` has
`time_acc ≠ 0` — the paused/unset value is always repaired — but
membership in the `TIME_ACCS` table is not enforced by the load path. -/
theorem load_savefile_time_acc_nonzero
    (legacy parse : _) (fs : FileSystem) (file : SavePath)
    (ps : PhysicsState)
    (h : load_savefile legacy parse fs file = .ok ps) :
    ps.time_acc ≠ 0 := by
  obtain ⟨s, rfl⟩ := load_ok_canonical legacy parse fs file ps h
  exact (canonicalize_invariants s).1

/-- Witness for the amended C8: a concrete load returns a snapshot with
nonzero time acceleration. -/
theorem load_savefile_time_acc_nonzero_witness :
    (canonicalize validState).time_acc ≠ 0 :=
  load_savefile_time_acc_nonzero legacyNone (parseConst validState)
    [(jsonPath, "doc")] jsonPath (canonicalize validState) (by decide)

/-- C9: `write_savefile` only reads the snapshot it is given: the document
written at the returned path is the encoding of the snapshot exactly as
passed, for every snapshot including non-canonical ones, so the writer
never re-runs the repair pass; in this pure state-passing embedding the
snapshot value itself is immutable and is unchanged by the call. -/
theorem write_savefile_reads_snapshot_only
    (encode : PhysicsState → String) (fs : FileSystem)
    (state : PhysicsState) (file : SavePath) :
    fsRead (write_savefile encode fs state file).1
        (write_savefile encode fs state file).2
      = some (encode state) := by
  unfold write_savefile
  by_cases h : lowerString file.suffix = ".json" <;>
    simp [h, fsWrite, fsRead]

/-- C10: the writer's extension check is case-insensitive: a path whose
suffix lowercases to ".json" is used exactly as given — nothing is
appended, the encoded state is written at the given path, and the input
path itself is returned. -/
theorem write_savefile_case_insensitive
    (encode : PhysicsState → String) (fs : FileSystem)
    (state : PhysicsState) (file : SavePath)
    (hsuf : lowerString file.suffix = ".json") :
    (write_savefile encode fs state file).2 = file ∧
    fsRead (write_savefile encode fs state file).1 file
      = some (encode state) := by
  unfold write_savefile
  simp [hsuf, fsWrite, fsRead]

/-- Witness for C10: saving to "SAVE.JSON" writes to and returns exactly
"SAVE.JSON". -/
theorem write_savefile_case_insensitive_witness :
    (write_savefile encodeRef [] validState upperPath).2 = upperPath ∧
    fsRead (write_savefile encodeRef [] validState upperPath).1 upperPath
      = some (encodeRef validState) :=
  write_savefile_case_insensitive encodeRef [] validState upperPath
    (by decide)

end OrbitX
